import Mathlib

/-!
Verification of `include/pass_through_controllers/trajectory_interface.h`
(pass-through trajectory hardware interface).

Shallow embedding conventions:

* The trajectory and feedback payload types (`control_msgs` /
  `cartesian_control_msgs` message types) are external, opaque, copyable
  value types; they are embedded as one-field wrapper structures, and the
  generic `TrajectoryHandle` is parameterized over them exactly as the
  C++ template is.
* The C++ buffer pointers `TrajectoryType* m_cmd` / `FeedbackType* m_feedback`
  are embedded as `Option Nat` addresses into an explicit store `Mem`
  (`none` models a null pointer).  A C++ `assert` on a pointer is embedded
  as an `Except` failure with `HwError.assertViolation`.
* The optional `std::function` callbacks are embedded as registration flags;
  an invocation of a callback is recorded as an `Event` in the list of events
  an operation emits (the `newCommand` event carries the value the source
  passes to the callback, namely the buffer contents after the write).
* `throw HardwareInterfaceException` in the constructors is embedded as
  `Except.error HwError.hardwareInterfaceException`.
-/

/-- Opaque payload of `control_msgs::FollowJointTrajectoryGoal` (external
message type, treated as a copyable value by the source). -/
structure JointTrajectory where
  payload : Nat
deriving DecidableEq

/-- Opaque payload of `cartesian_control_msgs::FollowCartesianTrajectoryGoal`. -/
structure CartesianTrajectory where
  payload : Nat
deriving DecidableEq

/-- Opaque payload of `control_msgs::FollowJointTrajectoryFeedback`. -/
structure JointTrajectoryFeedback where
  payload : Nat
deriving DecidableEq

/-- Opaque payload of `cartesian_control_msgs::FollowCartesianTrajectoryFeedback`. -/
structure CartesianTrajectoryFeedback where
  payload : Nat
deriving DecidableEq

/-- Errors surfaced by handle construction and by the embedded pointer
asserts. -/
inductive HwError where
  | hardwareInterfaceException
  | assertViolation
deriving DecidableEq

/-- Callback invocations observable from handle operations. -/
inductive Event (T : Type) where
  | newCommand (v : T)
  | cancel
deriving DecidableEq

/-- The externally owned buffer storage the handle's pointers point into. -/
structure Mem (T F : Type) where
  cmdStore : Nat → T
  fbStore : Nat → F

/-- Writing through a command-buffer pointer (`*m_cmd = command`). -/
def Mem.writeCmd {T F : Type} (m : Mem T F) (p : Nat) (v : T) : Mem T F :=
  Mem.mk (fun a => if a = p then v else m.cmdStore a) m.fbStore

/-- Writing through a feedback-buffer pointer (`*m_feedback = feedback`). -/
def Mem.writeFb {T F : Type} (m : Mem T F) (p : Nat) (w : F) : Mem T F :=
  Mem.mk m.cmdStore (fun a => if a = p then w else m.fbStore a)

/-- `TrajectoryHandle<TrajectoryType, FeedbackType>`: the two buffer
pointers and the two optional callbacks (embedded as registration flags). -/
structure TrajectoryHandle (T F : Type) where
  m_cmd : Option Nat
  m_feedback : Option Nat
  m_cmd_callback : Bool
  m_cancel_callback : Bool
deriving DecidableEq

/-- The two-argument constructor: stores both pointers, leaves both
callbacks empty, and throws `HardwareInterfaceException` when either
pointer is null. -/
def TrajectoryHandle.make (T F : Type) (cmd fb : Option Nat) :
    Except HwError (TrajectoryHandle T F) :=
  if cmd = none ∨ fb = none then
    Except.error HwError.hardwareInterfaceException
  else
    Except.ok (TrajectoryHandle.mk cmd fb false false)

/-- The four-argument constructor overload: additionally stores the
`on_new_cmd` and `on_cancel` callbacks (their registration state), and
performs the same null check. -/
def TrajectoryHandle.makeWithCallbacks (T F : Type) (cmd fb : Option Nat)
    (on_new_cmd on_cancel : Bool) : Except HwError (TrajectoryHandle T F) :=
  if cmd = none ∨ fb = none then
    Except.error HwError.hardwareInterfaceException
  else
    Except.ok (TrajectoryHandle.mk cmd fb on_new_cmd on_cancel)

/-- `setCommand`: `assert(m_cmd); *m_cmd = command;` then, if the command
callback is registered, invoke it with `*m_cmd` (the buffer contents after
the write).  Returns the new store and the emitted callback events. -/
def TrajectoryHandle.setCommand {T F : Type} (h : TrajectoryHandle T F)
    (command : T) (m : Mem T F) : Except HwError (Mem T F × List (Event T)) :=
  match h.m_cmd with
  | none => Except.error HwError.assertViolation
  | some p =>
      Except.ok (m.writeCmd p command,
        if h.m_cmd_callback then
          [Event.newCommand ((m.writeCmd p command).cmdStore p)]
        else [])

/-- `getCommand`: `assert(m_cmd); return *m_cmd;` (a copy, `const`). -/
def TrajectoryHandle.getCommand {T F : Type} (h : TrajectoryHandle T F)
    (m : Mem T F) : Except HwError T :=
  match h.m_cmd with
  | none => Except.error HwError.assertViolation
  | some p => Except.ok (m.cmdStore p)

/-- `cancelCommand`: invokes the cancel callback when registered; the body
never touches the stores. -/
def TrajectoryHandle.cancelCommand {T F : Type} (h : TrajectoryHandle T F)
    (m : Mem T F) : Mem T F × List (Event T) :=
  (m, if h.m_cancel_callback then [Event.cancel] else [])

/-- `setFeedback`: `assert(m_feedback); *m_feedback = feedback;`. -/
def TrajectoryHandle.setFeedback {T F : Type} (h : TrajectoryHandle T F)
    (feedback : F) (m : Mem T F) : Except HwError (Mem T F) :=
  match h.m_feedback with
  | none => Except.error HwError.assertViolation
  | some p => Except.ok (m.writeFb p feedback)

/-- `getFeedback`: `assert(m_feedback); return *m_feedback;` (a copy,
`const`). -/
def TrajectoryHandle.getFeedback {T F : Type} (h : TrajectoryHandle T F)
    (m : Mem T F) : Except HwError F :=
  match h.m_feedback with
  | none => Except.error HwError.assertViolation
  | some p => Except.ok (m.fbStore p)

/-- `getName`: returns the string literal `"joint_trajectory_handle"`. -/
def TrajectoryHandle.getName {T F : Type} (_h : TrajectoryHandle T F) : String :=
  "joint_trajectory_handle"

/-- `using JointTrajectoryHandle = TrajectoryHandle<JointTrajectory, JointTrajectoryFeedback>`. -/
abbrev JointTrajectoryHandle := TrajectoryHandle JointTrajectory JointTrajectoryFeedback

/-- `using CartesianTrajectoryHandle = TrajectoryHandle<CartesianTrajectory, CartesianTrajectoryFeedback>`. -/
abbrev CartesianTrajectoryHandle :=
  TrajectoryHandle CartesianTrajectory CartesianTrajectoryFeedback

/-- Error surfaced by the base registry's exclusivity check. -/
inductive ClaimError where
  | resourceConflict
deriving DecidableEq

/-- The claim bookkeeping of the base resource manager: which consumer
(identified by a number) currently holds which resource name. -/
structure ClaimState where
  claimed : List (String × Nat)
deriving DecidableEq

/-- Look up the consumer currently holding a resource name, if any. -/
def findOwner : List (String × Nat) → String → Option Nat
  | [], _ => none
  | (k, c) :: rest, r => if r = k then some c else findOwner rest r

/-- Modelled from the spec: the single-resource claim of the base
`hardware_interface::HardwareResourceManager` (ros_control code, not part
of this repository).  Per the spec it is the "base exclusivity check":
claiming "fails if any member is already claimed by another consumer";
otherwise the claim is recorded for the claiming consumer. -/
def baseClaim (c : Nat) (r : String) (s : ClaimState) :
    Except ClaimError ClaimState :=
  match findOwner s.claimed r with
  | some c' => if c' = c then Except.ok s else Except.error ClaimError.resourceConflict
  | none => Except.ok (ClaimState.mk ((r, c) :: s.claimed))

/-- The loop body of `TrajectoryInterface::claim`: claim each configured
joint name in order through the base claim.  A thrown `ResourceConflict`
propagates immediately; the claim-state mutations made by the iterations
before the failing one persist (C++ exception semantics: the member state
of the live object is not unwound). -/
def claimLoop (c : Nat) : List String → ClaimState → ClaimState × Option ClaimError
  | [], s => (s, none)
  | j :: rest, s =>
      match baseClaim c j s with
      | Except.error e => (s, some e)
      | Except.ok s' => claimLoop c rest s'

/-- `TrajectoryInterface<TrajectoryType, FeedbackType>`: the derived
interface's own state is the configured joint-name group. -/
structure TrajectoryInterface where
  m_joint_names : List String
deriving DecidableEq

/-- A default-constructed interface: `std::vector` default-constructs
empty, so no resources are configured. -/
def TrajectoryInterface.initial : TrajectoryInterface := TrajectoryInterface.mk []

/-- `setResources`: `m_joint_names = resources` (replaces, not additive). -/
def TrajectoryInterface.setResources (_iface : TrajectoryInterface)
    (resources : List String) : TrajectoryInterface :=
  TrajectoryInterface.mk resources

/-- `claim`: ignores its `resource` argument (unnamed in the source) and
claims every configured joint name through the base claim. -/
def TrajectoryInterface.claim (iface : TrajectoryInterface) (c : Nat)
    (_resource : String) (s : ClaimState) : ClaimState × Option ClaimError :=
  claimLoop c iface.m_joint_names s

/-- Whether an `Except` result is an error. -/
def isErr {E A : Type} : Except E A → Bool
  | Except.error _ => true
  | Except.ok _ => false

/-- A fixed sample store for the joint-space instantiation, used to
evaluate the handle operations at concrete inputs. -/
def sampleMem : Mem JointTrajectory JointTrajectoryFeedback :=
  Mem.mk (fun _ => JointTrajectory.mk 0) (fun _ => JointTrajectoryFeedback.mk 0)

lemma findOwner_cons_self (l : List (String × Nat)) (r : String) (c : Nat) :
    findOwner ((r, c) :: l) r = some c := by
  simp [findOwner]

lemma findOwner_cons_ne {r k : String} (hne : r ≠ k) (l : List (String × Nat))
    (c : Nat) : findOwner ((k, c) :: l) r = findOwner l r := by
  simp [findOwner, hne]

lemma baseClaim_ok_owner {c : Nat} {r : String} {s s' : ClaimState}
    (h : baseClaim c r s = Except.ok s') :
    findOwner s'.claimed r = some c ∧
      ∀ t, t ≠ r → findOwner s'.claimed t = findOwner s.claimed t := by
  cases hf : findOwner s.claimed r with
  | none =>
      simp only [baseClaim, hf, Except.ok.injEq] at h
      subst h
      exact ⟨findOwner_cons_self _ _ _, fun t ht => findOwner_cons_ne ht _ _⟩
  | some c' =>
      by_cases hcc : c' = c
      · simp only [baseClaim, hf, hcc, if_true, eq_self_iff_true,
          Except.ok.injEq] at h
        subst h
        exact ⟨hcc ▸ hf, fun t _ => rfl⟩
      · simp [baseClaim, hf, hcc] at h

lemma baseClaim_ok_of_claimable {c : Nat} {r : String} {s : ClaimState}
    (hcl : findOwner s.claimed r = none ∨ findOwner s.claimed r = some c) :
    ∃ s', baseClaim c r s = Except.ok s' := by
  rcases hcl with hf | hf
  · exact ⟨ClaimState.mk ((r, c) :: s.claimed), by simp [baseClaim, hf]⟩
  · exact ⟨s, by simp [baseClaim, hf]⟩

lemma baseClaim_conflict {c c' : Nat} {r : String} {s : ClaimState}
    (hf : findOwner s.claimed r = some c') (hne : c' ≠ c) :
    baseClaim c r s = Except.error ClaimError.resourceConflict := by
  simp [baseClaim, hf, hne]

lemma baseClaim_preserves_owned {c : Nat} {r t : String} {s s' : ClaimState}
    (h : baseClaim c r s = Except.ok s')
    (ho : findOwner s.claimed t = some c) :
    findOwner s'.claimed t = some c := by
  obtain ⟨h1, h2⟩ := baseClaim_ok_owner h
  by_cases ht : t = r
  · subst ht; exact h1
  · rw [h2 t ht]; exact ho

lemma claimLoop_preserves_owned {c : Nat} {t : String} (names : List String) :
    ∀ {s : ClaimState}, findOwner s.claimed t = some c →
      findOwner ((claimLoop c names s).1).claimed t = some c := by
  induction names with
  | nil => intro s ho; exact ho
  | cons j rest ih =>
      intro s ho
      unfold claimLoop
      cases hb : baseClaim c j s with
      | error e => exact ho
      | ok s' => exact ih (baseClaim_preserves_owned hb ho)

lemma claimLoop_ok_all {c : Nat} (names : List String) :
    ∀ {s s' : ClaimState}, claimLoop c names s = (s', none) →
      ∀ j ∈ names, findOwner s'.claimed j = some c := by
  induction names with
  | nil => intro s s' _ j hj; exact absurd hj (List.not_mem_nil j)
  | cons n rest ih =>
      intro s s' h j hj
      unfold claimLoop at h
      cases hb : baseClaim c n s with
      | error e =>
          rw [hb] at h
          have h' : (s, some e) = (s', (none : Option ClaimError)) := h
          exact absurd (congrArg Prod.snd h') (by simp)
      | ok s₁ =>
          rw [hb] at h
          have h' : claimLoop c rest s₁ = (s', none) := h
          rcases List.mem_cons.mp hj with hjn | hjr
          · subst hjn
            have hown := (baseClaim_ok_owner hb).1
            have hkeep := claimLoop_preserves_owned rest hown
            rw [h'] at hkeep
            exact hkeep
          · exact ih h' j hjr

lemma claimLoop_conflict_no_rollback {c c' : Nat} (hne : c' ≠ c) (j : String)
    (post : List String) :
    ∀ (pre : List String) {s : ClaimState},
      (∀ p ∈ pre, findOwner s.claimed p = none ∨ findOwner s.claimed p = some c) →
      findOwner s.claimed j = some c' →
      (claimLoop c (pre ++ j :: post) s).2 = some ClaimError.resourceConflict ∧
        ∀ p ∈ pre, findOwner ((claimLoop c (pre ++ j :: post) s).1).claimed p = some c := by
  intro pre
  induction pre with
  | nil =>
      intro s _ hj
      simp only [List.nil_append]
      refine ⟨?_, fun p hp => absurd hp (List.not_mem_nil p)⟩
      simp only [claimLoop, baseClaim_conflict hj hne]
  | cons p pre ih =>
      intro s hpre hj
      have hpcl : findOwner s.claimed p = none ∨ findOwner s.claimed p = some c :=
        hpre p (List.mem_cons_self p pre)
      obtain ⟨s₁, hb⟩ := baseClaim_ok_of_claimable hpcl
      obtain ⟨hown, hoth⟩ := baseClaim_ok_owner hb
      have hjp : j ≠ p := by
        intro hEq
        subst hEq
        rcases hpcl with hf | hf
        · rw [hj] at hf; simp at hf
        · rw [hj] at hf; exact hne (Option.some.inj hf)
      have hj1 : findOwner s₁.claimed j = some c' := by
        rw [hoth j hjp]; exact hj
      have hpre1 : ∀ q ∈ pre,
          findOwner s₁.claimed q = none ∨ findOwner s₁.claimed q = some c := by
        intro q hq
        by_cases hqp : q = p
        · subst hqp; right; exact hown
        · rw [hoth q hqp]; exact hpre q (List.mem_cons_of_mem p hq)
      have hstep : claimLoop c ((p :: pre) ++ j :: post) s =
          claimLoop c (pre ++ j :: post) s₁ := by
        simp only [List.cons_append, claimLoop, hb, List.append_eq]
      obtain ⟨hfail, hclaimed⟩ := ih hpre1 hj1
      rw [hstep]
      refine ⟨hfail, ?_⟩
      intro q hq
      rcases List.mem_cons.mp hq with hqp | hqr
      · subst hqp
        exact claimLoop_preserves_owned (pre ++ j :: post) hown
      · exact hclaimed q hqr

lemma make_ok_fields {T F : Type} {cmd fb : Option Nat}
    {h : TrajectoryHandle T F}
    (hm : TrajectoryHandle.make T F cmd fb = Except.ok h) :
    h.m_cmd = cmd ∧ h.m_feedback = fb ∧ cmd ≠ none ∧ fb ≠ none := by
  by_cases hc : cmd = none ∨ fb = none
  · simp [TrajectoryHandle.make, hc] at hm
  · simp [TrajectoryHandle.make, hc] at hm
    obtain ⟨h1, h2⟩ := not_or.mp hc
    cases hm
    exact ⟨rfl, rfl, h1, h2⟩

lemma makeWithCallbacks_ok_fields {T F : Type} {cmd fb : Option Nat}
    {b₁ b₂ : Bool} {h : TrajectoryHandle T F}
    (hm : TrajectoryHandle.makeWithCallbacks T F cmd fb b₁ b₂ = Except.ok h) :
    h.m_cmd = cmd ∧ h.m_feedback = fb ∧ cmd ≠ none ∧ fb ≠ none := by
  by_cases hc : cmd = none ∨ fb = none
  · simp [TrajectoryHandle.makeWithCallbacks, hc] at hm
  · simp [TrajectoryHandle.makeWithCallbacks, hc] at hm
    obtain ⟨h1, h2⟩ := not_or.mp hc
    cases hm
    exact ⟨rfl, rfl, h1, h2⟩

lemma constructed_buffers {T F : Type} {cmd fb : Option Nat} {b₁ b₂ : Bool}
    {h : TrajectoryHandle T F}
    (hmk : TrajectoryHandle.make T F cmd fb = Except.ok h ∨
      TrajectoryHandle.makeWithCallbacks T F cmd fb b₁ b₂ = Except.ok h) :
    (∃ p, h.m_cmd = some p) ∧ ∃ q, h.m_feedback = some q := by
  have hfld : h.m_cmd = cmd ∧ h.m_feedback = fb ∧ cmd ≠ none ∧ fb ≠ none := by
    rcases hmk with hm | hm
    · exact make_ok_fields hm
    · exact makeWithCallbacks_ok_fields hm
  obtain ⟨h1, h2, h3, h4⟩ := hfld
  cases hcmd : cmd with
  | none => exact absurd hcmd h3
  | some p =>
      cases hfb : fb with
      | none => exact absurd hfb h4
      | some q => exact ⟨⟨p, by rw [h1, hcmd]⟩, ⟨q, by rw [h2, hfb]⟩⟩

/-- C1 (amended): if the configured group splits as `pre ++ j :: post`
where every member of `pre` is claimable by consumer `c` (unclaimed or
already held by `c`) while `j` is held by a different consumer `c'`, then
`claim` fails with `ResourceConflict`, but every member of `pre` is left
claimed by `c` afterwards: the partial claims taken before the failure are
not rolled back. -/
theorem claim_conflict_fails_without_rollback
    (iface : TrajectoryInterface) (c c' : Nat) (arg : String) (s : ClaimState)
    (pre post : List String) (j : String)
    (hnames : iface.m_joint_names = pre ++ j :: post)
    (hpre : ∀ p ∈ pre,
      findOwner s.claimed p = none ∨ findOwner s.claimed p = some c)
    (hj : findOwner s.claimed j = some c') (hne : c' ≠ c) :
    (iface.claim c arg s).2 = some ClaimError.resourceConflict ∧
      ∀ p ∈ pre, findOwner ((iface.claim c arg s).1).claimed p = some c := by
  unfold TrajectoryInterface.claim
  rw [hnames]
  exact claimLoop_conflict_no_rollback hne j post pre hpre hj

/-- Witness for the amended C1 theorem: group `["A", "B", "C"]`, `"B"`
held by consumer `2`, claimed by consumer `1`. -/
theorem claim_conflict_fails_without_rollback_witness :
    (((TrajectoryInterface.mk ["A", "B", "C"]).claim 1 "x"
        (ClaimState.mk [("B", 2)])).2 = some ClaimError.resourceConflict) ∧
      findOwner (((TrajectoryInterface.mk ["A", "B", "C"]).claim 1 "x"
        (ClaimState.mk [("B", 2)])).1).claimed "A" = some 1 :=
  have hmain := claim_conflict_fails_without_rollback
    (TrajectoryInterface.mk ["A", "B", "C"]) 1 2 "x" (ClaimState.mk [("B", 2)])
    ["A"] ["C"] "B" rfl (by decide) (by decide) (by decide)
  ⟨hmain.1, hmain.2 "A" (by decide)⟩

/-- C1 counterexample: for the configured group `["A", "B", "C"]` with
`"B"` already claimed by consumer `2`, consumer `1`'s `claim` fails with
`ResourceConflict`, yet afterwards member `"A"` is claimed by consumer
`1`: the partial claim taken before the failure was not rolled back,
refuting the atomic all-or-nothing rollback stated by the claim. -/
theorem claim_rollback_counterexample :
    (((TrajectoryInterface.mk ["A", "B", "C"]).claim 1 "B"
        (ClaimState.mk [("B", 2)])).2 = some ClaimError.resourceConflict) ∧
      findOwner (((TrajectoryInterface.mk ["A", "B", "C"]).claim 1 "B"
        (ClaimState.mk [("B", 2)])).1).claimed "A" = some 1 ∧
      ¬ findOwner (((TrajectoryInterface.mk ["A", "B", "C"]).claim 1 "B"
        (ClaimState.mk [("B", 2)])).1).claimed "A" = none := by
  decide

/-- C2: `claim` ignores the particular value of its resource-name
argument — any two argument strings produce identical results — and on a
successful claim every name of the previously configured group has been
claimed for the calling consumer through the base exclusivity check. -/
theorem claim_ignores_argument_and_claims_whole_group
    (iface : TrajectoryInterface) (c : Nat) (a₁ a₂ : String) (s : ClaimState) :
    iface.claim c a₁ s = iface.claim c a₂ s ∧
      ((iface.claim c a₁ s).2 = none →
        ∀ j ∈ iface.m_joint_names,
          findOwner ((iface.claim c a₁ s).1).claimed j = some c) := by
  refine ⟨rfl, fun hok j hj => ?_⟩
  have hok' : (claimLoop c iface.m_joint_names s).2 = none := hok
  have h : claimLoop c iface.m_joint_names s =
      ((claimLoop c iface.m_joint_names s).1, none) := by
    rw [← hok']
  exact claimLoop_ok_all iface.m_joint_names h j hj

/-- Witness for C2: the group `["A", "B"]` claimed from an empty claim
state, with two different argument strings. -/
theorem claim_ignores_argument_and_claims_whole_group_witness :
    ((TrajectoryInterface.mk ["A", "B"]).claim 1 "foo" (ClaimState.mk [])) =
        ((TrajectoryInterface.mk ["A", "B"]).claim 1 "bar" (ClaimState.mk [])) ∧
      findOwner (((TrajectoryInterface.mk ["A", "B"]).claim 1 "foo"
        (ClaimState.mk [])).1).claimed "A" = some 1 ∧
      findOwner (((TrajectoryInterface.mk ["A", "B"]).claim 1 "foo"
        (ClaimState.mk [])).1).claimed "B" = some 1 :=
  have hmain := claim_ignores_argument_and_claims_whole_group
    (TrajectoryInterface.mk ["A", "B"]) 1 "foo" "bar" (ClaimState.mk [])
  ⟨hmain.1, hmain.2 (by decide) "A" (by decide), hmain.2 (by decide) "B" (by decide)⟩

/-- C9: on a default-constructed interface (no `setResources` call ever
made: `std::vector` default-constructs empty), and likewise after
`setResources` with an empty list, `claim` iterates over an empty group:
it claims no resource at all, leaves the claim state unchanged, and
signals no error. -/
theorem claim_with_empty_group_is_noop (iface : TrajectoryInterface)
    (c : Nat) (arg₁ arg₂ : String) (s : ClaimState) :
    TrajectoryInterface.initial.claim c arg₁ s = (s, none) ∧
      (iface.setResources []).claim c arg₂ s = (s, none) :=
  ⟨rfl, rfl⟩

/-- C3: for both constructor overloads and for all four present/absent
combinations of the command and feedback buffer pointers, construction
fails — with the typed `HardwareInterfaceException` — exactly when at
least one of the two buffer pointers is absent; on failure the `Except`
result carries no handle, so no partially-usable handle is produced. -/
theorem handle_construction_fails_iff_buffer_missing
    (T F : Type) (cmd fb : Option Nat) (b₁ b₂ : Bool) :
    (TrajectoryHandle.make T F cmd fb =
        Except.error HwError.hardwareInterfaceException ↔
      (cmd = none ∨ fb = none)) ∧
    (TrajectoryHandle.makeWithCallbacks T F cmd fb b₁ b₂ =
        Except.error HwError.hardwareInterfaceException ↔
      (cmd = none ∨ fb = none)) := by
  by_cases hc : cmd = none ∨ fb = none <;>
    simp [TrajectoryHandle.make, TrajectoryHandle.makeWithCallbacks, hc]

/-- C4: for every successfully constructed handle (either overload), a
`setCommand v` that produced the store `m'` fully overwrote the command
buffer with `v`, so `getCommand` on `m'` returns exactly `v`. -/
theorem setCommand_getCommand_roundtrip {T F : Type} (cmd fb : Option Nat)
    (b₁ b₂ : Bool) (h : TrajectoryHandle T F)
    (hmk : TrajectoryHandle.make T F cmd fb = Except.ok h ∨
      TrajectoryHandle.makeWithCallbacks T F cmd fb b₁ b₂ = Except.ok h)
    (v : T) (m m' : Mem T F) (ev : List (Event T))
    (hset : h.setCommand v m = Except.ok (m', ev)) :
    h.getCommand m' = Except.ok v := by
  obtain ⟨⟨p, hp⟩, _⟩ := constructed_buffers hmk
  simp only [TrajectoryHandle.setCommand, hp, Except.ok.injEq,
    Prod.mk.injEq] at hset
  obtain ⟨hm', _⟩ := hset
  rw [← hm']
  simp [TrajectoryHandle.getCommand, hp, Mem.writeCmd]

/-- Witness for C4 at a concrete joint-space handle and store. -/
theorem setCommand_getCommand_roundtrip_witness :
    (TrajectoryHandle.mk (some 0) (some 1) false false :
        JointTrajectoryHandle).getCommand
        (sampleMem.writeCmd 0 (JointTrajectory.mk 5)) =
      Except.ok (JointTrajectory.mk 5) :=
  setCommand_getCommand_roundtrip (some 0) (some 1) false false
    (TrajectoryHandle.mk (some 0) (some 1) false false) (Or.inl rfl)
    (JointTrajectory.mk 5) sampleMem
    (sampleMem.writeCmd 0 (JointTrajectory.mk 5)) [] rfl

/-- C5: a single `setCommand v` on a handle with a live command pointer
writes `v` and emits exactly one `newCommand` callback invocation carrying
the newly written value `v` when the callback is registered — and emits no
invocation at all when no callback is registered. -/
theorem setCommand_invokes_callback_exactly_once {T F : Type}
    (h : TrajectoryHandle T F) (p : Nat) (hp : h.m_cmd = some p) (v : T)
    (m : Mem T F) :
    h.setCommand v m = Except.ok (m.writeCmd p v,
      if h.m_cmd_callback then [Event.newCommand v] else []) := by
  simp [TrajectoryHandle.setCommand, hp, Mem.writeCmd]

/-- Witness for C5: with a registered callback the event list is exactly
one `newCommand` carrying the written value; without one it is empty. -/
theorem setCommand_invokes_callback_exactly_once_witness :
    (TrajectoryHandle.mk (some 0) (some 1) true false :
        JointTrajectoryHandle).setCommand (JointTrajectory.mk 7) sampleMem =
      Except.ok (sampleMem.writeCmd 0 (JointTrajectory.mk 7),
        [Event.newCommand (JointTrajectory.mk 7)]) ∧
    (TrajectoryHandle.mk (some 0) (some 1) false false :
        JointTrajectoryHandle).setCommand (JointTrajectory.mk 7) sampleMem =
      Except.ok (sampleMem.writeCmd 0 (JointTrajectory.mk 7), []) := by
  constructor
  · simpa using setCommand_invokes_callback_exactly_once
      (TrajectoryHandle.mk (some 0) (some 1) true false) 0 rfl
      (JointTrajectory.mk 7) sampleMem
  · simpa using setCommand_invokes_callback_exactly_once
      (TrajectoryHandle.mk (some 0) (some 1) false false) 0 rfl
      (JointTrajectory.mk 7) sampleMem

/-- C6: `cancelCommand` returns the stores unchanged (neither the command
nor the feedback buffer is touched), emits exactly one cancel-callback
invocation when the callback is registered, and emits nothing when it is
not registered. -/
theorem cancelCommand_frame_and_callback {T F : Type}
    (h : TrajectoryHandle T F) (m : Mem T F) :
    (h.cancelCommand m).1 = m ∧
      (h.m_cancel_callback = true → (h.cancelCommand m).2 = [Event.cancel]) ∧
      (h.m_cancel_callback = false → (h.cancelCommand m).2 = []) := by
  refine ⟨rfl, fun hb => ?_, fun hb => ?_⟩ <;>
    simp [TrajectoryHandle.cancelCommand, hb]

/-- Witness for C6 at concrete handles with and without a cancel
callback. -/
theorem cancelCommand_frame_and_callback_witness :
    ((TrajectoryHandle.mk (some 0) (some 1) false true :
        JointTrajectoryHandle).cancelCommand sampleMem).1 = sampleMem ∧
      ((TrajectoryHandle.mk (some 0) (some 1) false true :
        JointTrajectoryHandle).cancelCommand sampleMem).2 = [Event.cancel] ∧
      ((TrajectoryHandle.mk (some 0) (some 1) false false :
        JointTrajectoryHandle).cancelCommand sampleMem).2 = [] :=
  ⟨(cancelCommand_frame_and_callback
      (TrajectoryHandle.mk (some 0) (some 1) false true) sampleMem).1,
   (cancelCommand_frame_and_callback
      (TrajectoryHandle.mk (some 0) (some 1) false true) sampleMem).2.1 rfl,
   (cancelCommand_frame_and_callback
      (TrajectoryHandle.mk (some 0) (some 1) false false) sampleMem).2.2 rfl⟩

/-- C7: for every successfully constructed handle (either overload), a
`setFeedback w` that produced the store `m'` fully overwrote the feedback
buffer with `w`, so `getFeedback` on `m'` returns exactly `w` — mirroring
the command round-trip.  `getFeedback` itself is read-only: it returns a
copy and produces no new store (the source method is `const`). -/
theorem setFeedback_getFeedback_roundtrip {T F : Type} (cmd fb : Option Nat)
    (b₁ b₂ : Bool) (h : TrajectoryHandle T F)
    (hmk : TrajectoryHandle.make T F cmd fb = Except.ok h ∨
      TrajectoryHandle.makeWithCallbacks T F cmd fb b₁ b₂ = Except.ok h)
    (w : F) (m m' : Mem T F)
    (hset : h.setFeedback w m = Except.ok m') :
    h.getFeedback m' = Except.ok w := by
  obtain ⟨_, ⟨q, hq⟩⟩ := constructed_buffers hmk
  simp only [TrajectoryHandle.setFeedback, hq, Except.ok.injEq] at hset
  rw [← hset]
  simp [TrajectoryHandle.getFeedback, hq, Mem.writeFb]

/-- Witness for C7 at a concrete joint-space handle and store. -/
theorem setFeedback_getFeedback_roundtrip_witness :
    (TrajectoryHandle.mk (some 0) (some 1) false false :
        JointTrajectoryHandle).getFeedback
        (sampleMem.writeFb 1 (JointTrajectoryFeedback.mk 3)) =
      Except.ok (JointTrajectoryFeedback.mk 3) :=
  setFeedback_getFeedback_roundtrip (some 0) (some 1) false false
    (TrajectoryHandle.mk (some 0) (some 1) false false) (Or.inl rfl)
    (JointTrajectoryFeedback.mk 3) sampleMem
    (sampleMem.writeFb 1 (JointTrajectoryFeedback.mk 3)) rfl

/-- C8: a successfully constructed handle (either overload) has both
buffer pointers non-null; since no handle operation writes the pointer
fields (no source method assigns `m_cmd` or `m_feedback`, and the embedded
operations take the handle immutably), the pointer asserts in
`setCommand`, `getCommand`, `setFeedback` and `getFeedback` can never fail
on such a handle. -/
theorem constructed_handle_asserts_never_fail {T F : Type}
    (cmd fb : Option Nat) (b₁ b₂ : Bool) (h : TrajectoryHandle T F)
    (hmk : TrajectoryHandle.make T F cmd fb = Except.ok h ∨
      TrajectoryHandle.makeWithCallbacks T F cmd fb b₁ b₂ = Except.ok h)
    (v : T) (w : F) (m : Mem T F) :
    h.m_cmd.isSome = true ∧ h.m_feedback.isSome = true ∧
      isErr (h.setCommand v m) = false ∧ isErr (h.getCommand m) = false ∧
      isErr (h.setFeedback w m) = false ∧ isErr (h.getFeedback m) = false := by
  obtain ⟨⟨p, hp⟩, ⟨q, hq⟩⟩ := constructed_buffers hmk
  refine ⟨by rw [hp]; rfl, by rw [hq]; rfl, ?_, ?_, ?_, ?_⟩ <;>
    simp [TrajectoryHandle.setCommand, TrajectoryHandle.getCommand,
      TrajectoryHandle.setFeedback, TrajectoryHandle.getFeedback, hp, hq, isErr]

/-- Witness for C8 at a concrete handle built by the callback overload. -/
theorem constructed_handle_asserts_never_fail_witness :
    (TrajectoryHandle.mk (some 0) (some 1) true true :
        JointTrajectoryHandle).m_cmd.isSome = true ∧
      (TrajectoryHandle.mk (some 0) (some 1) true true :
        JointTrajectoryHandle).m_feedback.isSome = true ∧
      isErr ((TrajectoryHandle.mk (some 0) (some 1) true true :
        JointTrajectoryHandle).setCommand (JointTrajectory.mk 4) sampleMem)
        = false ∧
      isErr ((TrajectoryHandle.mk (some 0) (some 1) true true :
        JointTrajectoryHandle).getCommand sampleMem) = false ∧
      isErr ((TrajectoryHandle.mk (some 0) (some 1) true true :
        JointTrajectoryHandle).setFeedback (JointTrajectoryFeedback.mk 6)
        sampleMem) = false ∧
      isErr ((TrajectoryHandle.mk (some 0) (some 1) true true :
        JointTrajectoryHandle).getFeedback sampleMem) = false :=
  constructed_handle_asserts_never_fail (some 0) (some 1) true true
    (TrajectoryHandle.mk (some 0) (some 1) true true) (Or.inr rfl)
    (JointTrajectory.mk 4) (JointTrajectoryFeedback.mk 6) sampleMem

/-- C10: `getName` returns the constant string
`"joint_trajectory_handle"` for every handle, in both the joint-space and
the Cartesian instantiation and regardless of the constructor arguments,
so no two handles are distinguishable by name. -/
theorem getName_is_constant :
    (∀ h : JointTrajectoryHandle, h.getName = "joint_trajectory_handle") ∧
      ∀ h₁ : CartesianTrajectoryHandle,
        h₁.getName = "joint_trajectory_handle" :=
  ⟨fun _ => rfl, fun _ => rfl⟩
